import Mathlib

/-!
# WebLead backend — shallow embedding

A shallow embedding of the lead-generation backend (`backend/index.js`,
`backend/scripts/migrateUsersToBusinesses.js`, and the cleanup script) and
proofs about its User↔Business linkage model.

Modelling conventions:
* Mongo ObjectIds are modelled as `Nat`; the store allocates them from a
  counter (`nextId`).
* A JS value that may be `undefined`/`null` is an `Option`; `none` stands for
  both `undefined` and `null` (the code never distinguishes them on the paths
  modelled here).
* JS string truthiness (`x || d` falls through on `undefined`, `null` and
  `""`) is `jsOrS` / `jsOrOptS`; `String(x)` on a possibly-absent id is
  `jsStringId` (absent ids print as "undefined").
* JSON numbers on the product routes are modelled as integers (`Int`): no
  claim here depends on non-integral or NaN inputs, and `Number.isInteger` /
  `isNaN` are evaluated accordingly.
* `Date` timestamps and the best-effort e-mail side effect carry no
  information used by any claim and are omitted from the documents.
* bcrypt hashing is an external collaborator and is passed in as an abstract
  `hash : String → String`.
-/

/-- A persisted `users` document. The live `userSchema` has no
`category`/`location`/`description` fields, but the migration and cleanup
scripts open the collection with `strict:false`, so legacy documents may
carry them; they are optional fields here. `phone`/`address`/`bio` play no
role in any claim and are omitted. -/
structure UserDoc where
  id : Nat
  name : Option String
  email : Option String
  password : String
  role : String
  businessId : Option Nat
  category : Option String
  location : Option String
  description : Option String
deriving Repr, DecidableEq

/-- A persisted `businesses` document (`businessSchema`). `name` is optional:
`name || email` in JS can itself be `undefined` when both are absent. -/
structure BusinessDoc where
  id : Nat
  name : Option String
  owner : Nat
  category : String
  location : String
  description : String
deriving Repr, DecidableEq

/-- A persisted `products` document (`productSchema`). -/
structure ProductDoc where
  id : Nat
  name : Option String
  sku : Option String
  price : Int
  quantity : Int
  description : Option String
  images : Option (List String)
  businessId : Option Nat
deriving Repr, DecidableEq

/-- A persisted `leads` document (`leadSchema`). -/
structure LeadDoc where
  id : Nat
  name : Option String
  email : Option String
  phone : Option String
  message : Option String
  businessId : Option Nat
  submittedBy : Option Nat
deriving Repr, DecidableEq

/-- The document store (the Mongo database, or the in-memory fallback). -/
structure Store where
  users : List UserDoc
  businesses : List BusinessDoc
  products : List ProductDoc
  leads : List LeadDoc
  nextId : Nat
deriving Repr, DecidableEq

def emptyStore : Store :=
  { users := [], businesses := [], products := [], leads := [], nextId := 1 }

/-- JS `a || d` on a string-or-absent left operand with a string default:
falls through on `undefined`/`null`/`""`. -/
def jsOrS (a : Option String) (d : String) : String :=
  match a with
  | none => d
  | some s => if s = "" then d else s

/-- JS `a || b` where both operands are string-or-absent. -/
def jsOrOptS (a b : Option String) : Option String :=
  match a with
  | none => b
  | some s => if s = "" then b else some s

/-- JS `String(x)` applied to a possibly-absent ObjectId, as in
`String(p.businessId) !== String(req.user.businessId)`. An absent id prints
as "undefined" (`null` prints as "null"; both are `none` here, which is
faithful for every comparison the code performs). -/
def jsStringId : Option Nat → String
  | none => "undefined"
  | some n => toString n

/-- JS `Number(x || 0)` on the product routes, with numbers as integers. -/
def jsNum : Option Int → Int
  | none => 0
  | some n => n

-- ---------------------------------------------------------------------------
-- POST /api/auth/register  (index.js lines 138-188)
-- ---------------------------------------------------------------------------

/-- The JSON body of a registration request. -/
structure RegisterBody where
  name : Option String
  email : Option String
  password : String
  role : Option String
  category : Option String
  location : Option String
  description : Option String
deriving Repr, DecidableEq

/-- Outcome of `POST /api/auth/register` (the 500 path is a store failure,
not modelled: the pure store never fails). -/
inductive RegResult where
  | emailExists
  | businessRegistered (businessId : Nat)
  | userRegistered (userId : Nat)
deriving Repr, DecidableEq

/-- Lines 149-150: `let role = req.body.role || 'business'; if (role !==
'business' && role !== 'customer') role = 'business';` -/
def normalizeRole (r : Option String) : String :=
  let role0 := jsOrS r "business"
  if role0 ≠ "business" ∧ role0 ≠ "customer" then "business" else role0

/-- The register handler, lines 138-188 of `index.js`. Lines 145-147 delete
`category`/`location`/`description` from `req.body` before anything reads
them (`bodyScrubbed`); the later `Business.create` at lines 160-166 reads
`req.body.category || ""` etc. from that already-scrubbed body. -/
def register (hash : String → String) (st : Store) (body : RegisterBody) :
    Store × RegResult :=
  let bodyScrubbed : RegisterBody :=
    { body with category := none, location := none, description := none }
  let role := normalizeRole body.role
  if st.users.any (fun u => u.email == body.email) then
    (st, RegResult.emailExists)
  else
    let uid := st.nextId
    let user : UserDoc :=
      { id := uid, name := body.name, email := body.email,
        password := hash body.password, role := role, businessId := none,
        category := none, location := none, description := none }
    let st1 : Store := { st with users := st.users ++ [user], nextId := uid + 1 }
    if role = "business" then
      let bid := st1.nextId
      let biz : BusinessDoc :=
        { id := bid, name := jsOrOptS body.name body.email, owner := uid,
          category := jsOrS bodyScrubbed.category "",
          location := jsOrS bodyScrubbed.location "",
          description := jsOrS bodyScrubbed.description "" }
      let st2 : Store :=
        { st1 with businesses := st1.businesses ++ [biz], nextId := bid + 1 }
      let linked :=
        st2.users.map fun v =>
          if v.id = uid then { v with businessId := some bid } else v
      let st3 : Store := { st2 with users := linked }
      (st3, RegResult.businessRegistered bid)
    else
      let scrubbed :=
        st1.users.map fun v =>
          if v.id = uid then
            { v with category := none, location := none, description := none }
          else v
      let st2 : Store := { st1 with users := scrubbed }
      (st2, RegResult.userRegistered uid)

-- ---------------------------------------------------------------------------
-- Authenticated caller (the decoded JWT payload placed on `req.user`)
-- ---------------------------------------------------------------------------

/-- `req.user`: the JWT payload signed at login
(`{ id, role, email, businessId }`). -/
structure AuthUser where
  id : Nat
  role : String
  email : Option String
  businessId : Option Nat
deriving Repr, DecidableEq

-- ---------------------------------------------------------------------------
-- POST /api/leads  (index.js lines 265-305)
-- ---------------------------------------------------------------------------

/-- The JSON body of a lead submission. -/
structure LeadBody where
  name : Option String
  email : Option String
  phone : Option String
  message : Option String
  businessId : Option Nat
deriving Repr, DecidableEq

inductive CreateLeadResult where
  | missingFields                -- 400 "phone and email are required"
  | sent (l : LeadDoc)           -- 200 "Lead sent"
deriving Repr, DecidableEq

/-- JS truthiness of a string-or-absent value (`!x` is true exactly when this
is false). -/
def strTruthy : Option String → Bool
  | none => false
  | some s => s != ""

/-- The lead-submission handler, lines 265-305. The caller is authenticated
(`req.user` present), so `req.user?.email` is `user.email` and
`req.user?.id` is `user.id`. The notification e-mail is best-effort and
carries no store effect. -/
def createLead (st : Store) (user : AuthUser) (body : LeadBody) :
    Store × CreateLeadResult :=
  let email := jsOrOptS user.email body.email
  if !strTruthy body.phone || !strTruthy email then
    (st, CreateLeadResult.missingFields)
  else
    let l : LeadDoc :=
      { id := st.nextId, name := body.name, email := email, phone := body.phone,
        message := body.message, businessId := body.businessId,
        submittedBy := some user.id }
    ({ st with leads := st.leads ++ [l], nextId := st.nextId + 1 },
     CreateLeadResult.sent l)

-- ---------------------------------------------------------------------------
-- Product routes (index.js lines 383-486)
-- ---------------------------------------------------------------------------

/-- The JSON body of a product create/update request. -/
structure ProductBody where
  name : Option String
  sku : Option String
  price : Option Int
  quantity : Option Int
  description : Option String
  images : Option (List String)
  businessId : Option Nat
deriving Repr, DecidableEq

/-- JS `String.prototype.trim`: strip leading and trailing whitespace.
Defined over the character list so that it evaluates inside the kernel. -/
def strTrim (s : String) : String :=
  String.mk (((s.data.dropWhile Char.isWhitespace).reverse.dropWhile
    Char.isWhitespace).reverse)

/-- Server-side validation shared by product create (lines 387-393) and
update (lines 457-463): name required and non-blank, `Number(price || 0)`
non-negative, `Number(quantity || 0)` a non-negative integer. With numbers
as `Int`, `isNaN` is always false and `Number.isInteger` always true. -/
def productInvalid (body : ProductBody) : Bool :=
  (match body.name with
   | none => true
   | some s => strTrim s == "") || jsNum body.price < 0 || jsNum body.quantity < 0

inductive CreateProductResult where
  | validationFailed             -- 400 "Validation failed"
  | businessIdRequired           -- 400 "businessId required"
  | forbidden                    -- 403
  | created (p : ProductDoc)     -- 200
deriving Repr, DecidableEq

/-- `POST /api/business/products`, lines 383-412. A `business` caller's
product is always attached to the caller's own token `businessId` (line
396-398 overwrites the body value); other roles keep the body value. An
ObjectId is always truthy in JS, so `!bid` holds exactly when `bid` is
absent. -/
def createProduct (st : Store) (user : AuthUser) (body : ProductBody) :
    Store × CreateProductResult :=
  if productInvalid body then
    (st, CreateProductResult.validationFailed)
  else
    let bid := if user.role = "business" then user.businessId else body.businessId
    match bid with
    | none => (st, CreateProductResult.businessIdRequired)
    | some b =>
      if user.role = "business" ∨ user.role = "admin" then
        let p : ProductDoc :=
          { id := st.nextId, name := body.name, sku := body.sku,
            price := jsNum body.price, quantity := jsNum body.quantity,
            description := body.description,
            images := some ((body.images).getD []), businessId := some b }
        ({ st with products := st.products ++ [p], nextId := st.nextId + 1 },
         CreateProductResult.created p)
      else (st, CreateProductResult.forbidden)

inductive UpdateProductResult where
  | notFound                     -- 404
  | forbidden                    -- 403
  | validationFailed             -- 400
  | updated (p : ProductDoc)     -- 200
deriving Repr, DecidableEq

/-- `Product.findById` over the store. -/
def findProduct (st : Store) (pid : Nat) : Option ProductDoc :=
  st.products.find? fun p => p.id == pid

/-- `PUT /api/business/products/:id`, lines 449-472. The ownership gate (line
454) compares `String(p.businessId)` with `String(req.user.businessId)` and
runs before validation; on success `Object.assign(p, updates)` overwrites
the listed fields (body `businessId` is not among them) and saves. -/
def updateProduct (st : Store) (user : AuthUser) (pid : Nat)
    (body : ProductBody) : Store × UpdateProductResult :=
  match findProduct st pid with
  | none => (st, UpdateProductResult.notFound)
  | some p =>
    if user.role ≠ "admin" ∧ jsStringId p.businessId ≠ jsStringId user.businessId
    then (st, UpdateProductResult.forbidden)
    else if productInvalid body then (st, UpdateProductResult.validationFailed)
    else
      let p' : ProductDoc :=
        { p with name := body.name, sku := body.sku, price := jsNum body.price,
                 quantity := jsNum body.quantity, description := body.description,
                 images := body.images }
      let newProducts := st.products.map fun q => if q.id = pid then p' else q
      ({ st with products := newProducts }, UpdateProductResult.updated p')

-- ---------------------------------------------------------------------------
-- Cleanup Runner  (cleanup script: `User.updateMany` unsetting the legacy
-- business fields)
-- ---------------------------------------------------------------------------

/-- The cleanup script's match condition: at least one of
`category`/`location`/`description` exists on the user document. -/
def cleanupMatch (u : UserDoc) : Bool :=
  u.category.isSome || u.location.isSome || u.description.isSome

/-- The cleanup script's single `updateMany`: every matching document has all
three fields `$unset`; returns the new collection and `matchedCount`. -/
def cleanupRun (users : List UserDoc) : List UserDoc × Nat :=
  (users.map fun u =>
     if cleanupMatch u then
       { u with category := none, location := none, description := none }
     else u,
   (users.filter cleanupMatch).length)

-- ---------------------------------------------------------------------------
-- Migration Runner  (backend/scripts/migrateUsersToBusinesses.js)
-- ---------------------------------------------------------------------------

/-- The candidate query (line 17 of the migration script): users with
`role: 'business'` and `businessId` absent or null (`none` covers both). -/
def isMigrationCandidate (u : UserDoc) : Bool :=
  u.role == "business" && u.businessId == none

def migrateCandidates (users : List UserDoc) : List UserDoc :=
  users.filter isMigrationCandidate

/-- The Business document the migration synthesizes for candidate `u`
(lines 21-29): `name: u.name || u.email || 'Unnamed Business'`, owner `u._id`,
category/location/description copied with `|| ''` fallbacks. -/
def synthBusiness (u : UserDoc) (bid : Nat) : BusinessDoc :=
  { id := bid, name := some (jsOrS u.name (jsOrS u.email "Unnamed Business")),
    owner := u.id, category := jsOrS u.category "",
    location := jsOrS u.location "", description := jsOrS u.description "" }

/-- One iteration of the migration loop for candidate `u` (lines 19-36).
Per-user failures are caught and skipped, so each iteration is parameterized
by whether `Business.create` succeeds (`okCreate u.id`) and, if so, whether
the follow-up `User.updateOne` succeeds (`okLink u.id`); a create that
succeeds with a failed link leaves the orphan Business in place. -/
def migrateProcess (okCreate okLink : Nat → Bool) (st : Store) (u : UserDoc) :
    Store :=
  if okCreate u.id then
    let bid := st.nextId
    let biz := synthBusiness u bid
    let st1 : Store :=
      { st with businesses := st.businesses ++ [biz], nextId := bid + 1 }
    if okLink u.id then
      let newUsers := st1.users.map fun v =>
        if v.id = u.id then { v with businessId := some bid } else v
      { st1 with users := newUsers }
    else st1
  else st

/-- The migration run (function `run` of the script): query the candidates
once, then process each in order; returns the final store and the logged
candidate count. -/
def migrateRun (okCreate okLink : Nat → Bool) (st : Store) : Store × Nat :=
  let cands := migrateCandidates st.users
  (cands.foldl (migrateProcess okCreate okLink) st, cands.length)

-- ---------------------------------------------------------------------------
-- Theorems
-- ---------------------------------------------------------------------------

/-- Sample registration bodies used to evaluate the handlers on concrete
inputs. -/
def foodBody : RegisterBody :=
  { name := some "Acme", email := some "a@x.com", password := "pw",
    role := some "business", category := some "Food", location := none,
    description := none }

/-- C1: the spec's scenario "register with category Food yields a Business
with category Food" fails on the code. The handler deletes
`req.body.category` / `location` / `description` (index.js lines 145-147,
intended only to keep them off the User document) before `Business.create`
reads `req.body.category || ""` (line 163), so the created Business's
category is always `""`, never the supplied value. -/
theorem register_category_not_copied :
    foodBody.category = some "Food" ∧
    ((register (fun s => s) emptyStore foodBody).1.businesses.map
        BusinessDoc.category) = [""] ∧
    ((register (fun s => s) emptyStore foodBody).1.businesses.map
        BusinessDoc.category) ≠ ["Food"] := by decide

/-- The role normalization of lines 149-150 collapses every body role other
than "customer" to "business". -/
theorem normalizeRole_eq (r : Option String) :
    normalizeRole r = if r = some "customer" then "customer" else "business" := by
  rcases r with _ | s
  · rfl
  · by_cases hs : s = ""
    · subst hs; rfl
    · by_cases hc : s = "customer"
      · subst hc; rfl
      · by_cases hb : s = "business"
        · subst hb; rfl
        · simp [normalizeRole, jsOrS, hs, hc, hb]

/-- C2: when registration succeeds with a (normalized) business role, the
store afterwards contains the new User with a non-null `businessId` and the
Business it references, whose `owner` is that User's id. -/
theorem register_business_links (hash : String → String) (st : Store)
    (body : RegisterBody)
    (hfresh : st.users.any (fun u => u.email == body.email) = false)
    (hrole : normalizeRole body.role = "business") :
    ∃ bid, (register hash st body).2 = RegResult.businessRegistered bid ∧
      ∃ u ∈ (register hash st body).1.users,
        ∃ b ∈ (register hash st body).1.businesses,
          u.businessId = some bid ∧ b.id = bid ∧ b.owner = u.id := by
  simp only [register, hfresh, Bool.false_eq_true, if_false, hrole, if_pos]
  refine ⟨st.nextId + 1, rfl, ?_⟩
  refine ⟨_, List.mem_map_of_mem _ (List.mem_append_right _ (List.mem_singleton_self _)), ?_⟩
  refine ⟨_, List.mem_append_right _ (List.mem_singleton_self _), ?_⟩
  simp

/-- Witness for C2: a concrete business registration into the empty store. -/
theorem register_business_links_witness :
    ∃ bid, (register (fun s => s) emptyStore foodBody).2 =
        RegResult.businessRegistered bid ∧
      ∃ u ∈ (register (fun s => s) emptyStore foodBody).1.users,
        ∃ b ∈ (register (fun s => s) emptyStore foodBody).1.businesses,
          u.businessId = some bid ∧ b.id = bid ∧ b.owner = u.id :=
  register_business_links (fun s => s) emptyStore foodBody (by decide) (by decide)

def custBody : RegisterBody :=
  { name := some "Carol", email := some "c@x.com", password := "pw",
    role := some "customer", category := some "Food", location := some "Pune",
    description := none }

/-- C5: registering with role "customer" creates no Business, and the
persisted User has no `businessId` and none of the legacy business fields. -/
theorem register_customer_no_business (hash : String → String) (st : Store)
    (body : RegisterBody)
    (hfresh : st.users.any (fun u => u.email == body.email) = false)
    (hrole : body.role = some "customer") :
    (register hash st body).1.businesses = st.businesses ∧
    ∃ uid, (register hash st body).2 = RegResult.userRegistered uid ∧
      ∃ u ∈ (register hash st body).1.users, u.id = uid ∧
        u.role = "customer" ∧ u.businessId = none ∧
        u.category = none ∧ u.location = none ∧ u.description = none := by
  have h1 : normalizeRole body.role = "customer" := by
    rw [normalizeRole_eq, if_pos hrole]
  simp only [register, hfresh, Bool.false_eq_true, if_false, h1,
    if_neg (by decide : ¬("customer" : String) = "business")]
  refine ⟨trivial, st.nextId, rfl, ?_⟩
  refine ⟨_, List.mem_map_of_mem _ (List.mem_append_right _ (List.mem_singleton_self _)), ?_⟩
  simp

/-- Witness for C5: a concrete customer registration into the empty store. -/
theorem register_customer_no_business_witness :
    (register (fun s => s) emptyStore custBody).1.businesses =
      emptyStore.businesses ∧
    ∃ uid, (register (fun s => s) emptyStore custBody).2 =
        RegResult.userRegistered uid ∧
      ∃ u ∈ (register (fun s => s) emptyStore custBody).1.users, u.id = uid ∧
        u.role = "customer" ∧ u.businessId = none ∧
        u.category = none ∧ u.location = none ∧ u.description = none :=
  register_customer_no_business (fun s => s) emptyStore custBody
    (by decide) (by decide)

/-- C6: the persisted role is "customer" exactly when the body's role is the
string "customer" and "business" in every other case; a business role always
comes with a created, linked Business. -/
theorem register_role_gate (hash : String → String) (st : Store)
    (body : RegisterBody)
    (hfresh : st.users.any (fun u => u.email == body.email) = false) :
    ∃ u ∈ (register hash st body).1.users, u.email = body.email ∧
      (u.role = "customer" ↔ body.role = some "customer") ∧
      (u.role = "customer" ∨ u.role = "business") ∧
      (u.role = "business" →
        ∃ b ∈ (register hash st body).1.businesses,
          u.businessId = some b.id ∧ b.owner = u.id ∧
          (register hash st body).2 = RegResult.businessRegistered b.id) := by
  by_cases hc : body.role = some "customer"
  · have h1 : normalizeRole body.role = "customer" := by
      rw [normalizeRole_eq, if_pos hc]
    simp only [register, hfresh, Bool.false_eq_true, if_false, h1,
      if_neg (by decide : ¬("customer" : String) = "business")]
    refine ⟨_, List.mem_map_of_mem _ (List.mem_append_right _ (List.mem_singleton_self _)), ?_⟩
    simp [hc]
  · have h1 : normalizeRole body.role = "business" := by
      rw [normalizeRole_eq, if_neg hc]
    simp only [register, hfresh, Bool.false_eq_true, if_false, h1, if_pos]
    refine ⟨_, List.mem_map_of_mem _ (List.mem_append_right _ (List.mem_singleton_self _)), ?_⟩
    refine ⟨by simp, by simp [hc], by simp, ?_⟩
    intro _
    refine ⟨_, List.mem_append_right _ (List.mem_singleton_self _), ?_⟩
    simp

def noRoleBody : RegisterBody :=
  { name := some "Bob", email := some "b@x.com", password := "pw",
    role := none, category := none, location := none, description := none }

/-- Witness for C6: registration with the role omitted. -/
theorem register_role_gate_witness :
    ∃ u ∈ (register (fun s => s) emptyStore noRoleBody).1.users,
      u.email = noRoleBody.email ∧
      (u.role = "customer" ↔ noRoleBody.role = some "customer") ∧
      (u.role = "customer" ∨ u.role = "business") ∧
      (u.role = "business" →
        ∃ b ∈ (register (fun s => s) emptyStore noRoleBody).1.businesses,
          u.businessId = some b.id ∧ b.owner = u.id ∧
          (register (fun s => s) emptyStore noRoleBody).2 =
            RegResult.businessRegistered b.id) :=
  register_role_gate (fun s => s) emptyStore noRoleBody (by decide)

/-- C9: an authenticated lead submission with no phone is rejected with the
validation error and leaves the store untouched. -/
theorem createLead_missing_phone (st : Store) (user : AuthUser)
    (body : LeadBody) (hphone : body.phone = none) :
    createLead st user body = (st, CreateLeadResult.missingFields) := by
  simp [createLead, hphone, strTruthy]

def sampleCaller : AuthUser :=
  { id := 42, role := "customer", email := some "c@x.com", businessId := none }

def phonelessLead : LeadBody :=
  { name := some "Carol", email := some "c@x.com", phone := none,
    message := some "hi", businessId := some 3 }

/-- Witness for C9: a concrete phoneless submission. -/
theorem createLead_missing_phone_witness :
    createLead emptyStore sampleCaller phonelessLead =
      (emptyStore, CreateLeadResult.missingFields) :=
  createLead_missing_phone emptyStore sampleCaller phonelessLead (by decide)

/-- C8: a non-admin caller whose (stringified) businessId differs from the
product's gets 403 from the update route and the store is unchanged. -/
theorem updateProduct_foreign_forbidden (st : Store) (user : AuthUser)
    (pid : Nat) (body : ProductBody) (p : ProductDoc)
    (hp : findProduct st pid = some p)
    (hrole : user.role ≠ "admin")
    (hbid : jsStringId p.businessId ≠ jsStringId user.businessId) :
    updateProduct st user pid body = (st, UpdateProductResult.forbidden) := by
  simp [updateProduct, hp, hrole, hbid]

def foreignProduct : ProductDoc :=
  { id := 11, name := some "Widget", sku := some "W-1", price := 5,
    quantity := 2, description := none, images := some [], businessId := some 8 }

def productStore : Store :=
  { users := [], businesses := [], products := [foreignProduct], leads := [],
    nextId := 12 }

def bizCaller : AuthUser :=
  { id := 2, role := "business", email := some "b@x.com", businessId := some 9 }

def anyProductBody : ProductBody :=
  { name := some "Widget", sku := some "W-1", price := some 5,
    quantity := some 2, description := none, images := none,
    businessId := some 8 }

/-- Witness for C8: a business caller with businessId 9 updating a product
of business 8. -/
theorem updateProduct_foreign_forbidden_witness :
    updateProduct productStore bizCaller 11 anyProductBody =
      (productStore, UpdateProductResult.forbidden) :=
  updateProduct_foreign_forbidden productStore bizCaller 11 anyProductBody
    foreignProduct (by decide) (by decide) (by decide)

/-- C10: whenever the create-product route actually creates a product for a
business-role caller, the product is attached to the caller's own token
businessId, whatever the body said; an admin's product keeps the body's
businessId. -/
theorem createProduct_owner_scoped (st : Store) (user : AuthUser)
    (body : ProductBody) (p : ProductDoc)
    (hcreated : (createProduct st user body).2 = CreateProductResult.created p) :
    (user.role = "business" → p.businessId = user.businessId) ∧
    (user.role = "admin" → p.businessId = body.businessId) := by
  by_cases hinv : productInvalid body = true
  · simp [createProduct, hinv] at hcreated
  · by_cases hb : user.role = "business"
    · rcases hu : user.businessId with _ | b
      · simp [createProduct, hinv, hb, hu] at hcreated
      · simp [createProduct, hinv, hb, hu] at hcreated
        constructor
        · intro _
          rw [← hcreated]
        · intro ha
          rw [hb] at ha
          exact absurd ha (by decide)
    · rcases hu : body.businessId with _ | b
      · simp [createProduct, hinv, hb, hu] at hcreated
      · by_cases hadm : user.role = "admin"
        · simp [createProduct, hinv, hb, hu, hadm] at hcreated
          constructor
          · intro hbb
            exact absurd hbb hb
          · intro _
            rw [← hcreated]
        · simp [createProduct, hinv, hb, hu, hadm] at hcreated

def scopedProduct : ProductDoc :=
  { id := 1, name := some "Widget", sku := some "W-1", price := 5,
    quantity := 2, description := none, images := some [], businessId := some 9 }

/-- Witness for C10: the business caller with token businessId 9 asks for
businessId 8 in the body; the created product carries 9. -/
theorem createProduct_owner_scoped_witness :
    (bizCaller.role = "business" → scopedProduct.businessId = bizCaller.businessId) ∧
    (bizCaller.role = "admin" → scopedProduct.businessId = anyProductBody.businessId) :=
  createProduct_owner_scoped emptyStore bizCaller anyProductBody scopedProduct
    (by rfl)

/-- C4: the cleanup bulk update leaves no user carrying any of the three
legacy fields, so an immediately following run matches zero documents. -/
theorem cleanupRun_idempotent (users : List UserDoc) :
    (∀ u ∈ (cleanupRun users).1, cleanupMatch u = false) ∧
    (cleanupRun (cleanupRun users).1).2 = 0 := by
  have hall : ∀ u ∈ (cleanupRun users).1, cleanupMatch u = false := by
    intro u hu
    simp only [cleanupRun, List.mem_map] at hu
    obtain ⟨v, hv, rfl⟩ := hu
    by_cases h : cleanupMatch v = true
    · rw [if_pos h]
      rfl
    · rw [if_neg h]
      simpa using h
  refine ⟨hall, ?_⟩
  simp only [cleanupRun, List.length_eq_zero, List.filter_eq_nil_iff]
  intro u hu
  simp [hall u hu]

def dirtyUser : UserDoc :=
  { id := 1, name := some "Legacy", email := some "l@x.com", password := "h",
    role := "business", businessId := some 2, category := some "Food",
    location := none, description := some "old" }

def cleanedUser : UserDoc :=
  { dirtyUser with category := none, location := none, description := none }

/-- Witness for C4: one legacy user is scrubbed and the second run matches
zero documents. -/
theorem cleanupRun_idempotent_witness :
    cleanupMatch cleanedUser = false ∧
    (cleanupRun (cleanupRun [dirtyUser]).1).2 = 0 :=
  ⟨(cleanupRun_idempotent [dirtyUser]).1 cleanedUser (by decide),
   (cleanupRun_idempotent [dirtyUser]).2⟩

/-- Linking a user (setting `businessId`) removes exactly that id from the
candidate set; any id-based side condition `g` is unaffected. -/
theorem filter_link (l : List UserDoc) (uid bid : Nat) (g : Nat → Bool) :
    ((l.map fun v => if v.id = uid then { v with businessId := some bid } else v).filter
        fun v => g v.id && isMigrationCandidate v) =
      l.filter fun v => g v.id && (!(v.id == uid) && isMigrationCandidate v) := by
  induction l with
  | nil => rfl
  | cons a l ih =>
    by_cases h : a.id = uid
    · simp only [List.map_cons, List.filter_cons, if_pos h, h]
      rw [ih]
      simp [isMigrationCandidate]
    · simp only [List.map_cons, List.filter_cons, if_neg h]
      rw [ih]
      simp [h]

/-- After a migration pass over `l`, the users still matching the candidate
query are exactly those not successfully processed (those whose id was not
both created-for and linked). -/
theorem candidates_after_fold (okCreate okLink : Nat → Bool)
    (l : List UserDoc) (st : Store) :
    ((l.foldl (migrateProcess okCreate okLink) st).users.filter
        isMigrationCandidate) =
      st.users.filter fun v =>
        !(l.any fun u => v.id == u.id && (okCreate u.id && okLink u.id)) &&
          isMigrationCandidate v := by
  induction l generalizing st with
  | nil => simp
  | cons a l ih =>
    rw [List.foldl_cons, ih]
    by_cases hok : okCreate a.id = true
    · by_cases hlink : okLink a.id = true
      · simp only [migrateProcess, hok, hlink, if_pos]
        rw [filter_link st.users a.id st.nextId
          (fun n => !l.any fun u => n == u.id && (okCreate u.id && okLink u.id))]
        apply List.filter_congr
        intro v _
        simp [List.any_cons, hok, hlink, Bool.not_or, Bool.and_assoc,
          Bool.and_comm, Bool.and_left_comm]
      · simp only [migrateProcess, hok, hlink, if_pos, if_neg]
        apply List.filter_congr
        intro v _
        simp [List.any_cons, hlink]
    · simp only [migrateProcess, hok]
      rw [if_neg (by simp [hok])]
      apply List.filter_congr
      intro v _
      simp [List.any_cons, hok]

/-- C3: the migration is idempotent at the batch level. With no violating
user the run finds zero candidates and changes nothing (in particular it
creates no Business), and after any run — including a partial success, where
`okCreate`/`okLink` mark which per-user steps succeeded — the candidate set
a re-run would process is exactly the subset of users that still lack a
`businessId`. -/
theorem migrateRun_batch_idempotent (okCreate okLink : Nat → Bool) (st : Store) :
    (migrateCandidates st.users = [] → migrateRun okCreate okLink st = (st, 0)) ∧
    migrateCandidates (migrateRun okCreate okLink st).1.users =
      (migrateCandidates st.users).filter
        fun u => !(okCreate u.id && okLink u.id) := by
  constructor
  · intro h
    simp [migrateRun, h]
  · simp only [migrateRun, migrateCandidates]
    rw [candidates_after_fold, List.filter_filter]
    apply List.filter_congr
    intro v hv
    by_cases hc : isMigrationCandidate v = true
    · have hany :
          ((st.users.filter isMigrationCandidate).any fun u =>
            v.id == u.id && (okCreate u.id && okLink u.id)) =
          (okCreate v.id && okLink v.id) := by
        by_cases hok : (okCreate v.id && okLink v.id) = true
        · rw [hok, List.any_eq_true]
          exact ⟨v, List.mem_filter.mpr ⟨hv, hc⟩, by simp [hok]⟩
        · rw [Bool.not_eq_true] at hok
          rw [hok, List.any_eq_false]
          intro u _
          simp only [Bool.not_eq_true]
          cases he : (v.id == u.id) with
          | false => rw [Bool.false_and]
          | true =>
            rw [Bool.true_and]
            rw [beq_iff_eq] at he
            rw [← he]
            exact hok
      rw [hany, hc]
    · rw [Bool.not_eq_true] at hc
      rw [hc]
      simp

def linkedUser : UserDoc :=
  { id := 3, name := some "Linked", email := some "b@x.com", password := "h",
    role := "business", businessId := some 4, category := none,
    location := none, description := none }

def settledStore : Store :=
  { users := [linkedUser], businesses := [], products := [], leads := [],
    nextId := 5 }

/-- Witness for C3: in a store whose only business user is already linked
the run finds zero candidates and changes nothing. -/
theorem migrateRun_batch_idempotent_witness :
    migrateRun (fun _ => true) (fun _ => true) settledStore = (settledStore, 0) :=
  (migrateRun_batch_idempotent (fun _ => true) (fun _ => true) settledStore).1
    (by decide)

def blankNameUser : UserDoc :=
  { id := 7, name := some "", email := some "e@x.com", password := "h",
    role := "business", businessId := none, category := none,
    location := none, description := none }

def blankNameStore : Store :=
  { users := [blankNameUser], businesses := [], products := [], leads := [],
    nextId := 8 }

/-- C7 counterexample: `blankNameUser` is a migration candidate whose `name`
field is present (the empty string), yet the Business the runner creates for
it is named after the email: `u.name || u.email || 'Unnamed Business'` falls
through on a present-but-empty name, so the claim "name equals user.name if
present" fails here. -/
theorem migrate_present_blank_name_not_used :
    blankNameUser.name.isSome = true ∧
    (migrateRun (fun _ => true) (fun _ => true) blankNameStore).1.businesses.map
        BusinessDoc.name = [some "e@x.com"] ∧
    some "e@x.com" ≠ blankNameUser.name := by decide

/-- C7 amended: the synthesized Business's name is user.name when present
and non-empty, else user.email when present and non-empty, else the literal
"Unnamed Business"; category, location and description default to the empty
string when the user's field is absent. -/
theorem synthBusiness_fallbacks (u : UserDoc) (bid : Nat) :
    (∀ s, u.name = some s → s ≠ "" → (synthBusiness u bid).name = some s) ∧
    ((u.name = none ∨ u.name = some "") →
      ∀ s, u.email = some s → s ≠ "" → (synthBusiness u bid).name = some s) ∧
    ((u.name = none ∨ u.name = some "") → (u.email = none ∨ u.email = some "") →
      (synthBusiness u bid).name = some "Unnamed Business") ∧
    (u.category = none → (synthBusiness u bid).category = "") ∧
    (u.location = none → (synthBusiness u bid).location = "") ∧
    (u.description = none → (synthBusiness u bid).description = "") := by
  refine ⟨?_, ?_, ?_, ?_, ?_, ?_⟩
  · intro s hs hne
    simp [synthBusiness, jsOrS, hs, hne]
  · rintro (h | h) s hs hne <;> simp [synthBusiness, jsOrS, h, hs, hne]
  · rintro (h | h) (h2 | h2) <;> simp [synthBusiness, jsOrS, h, h2]
  · intro h
    simp [synthBusiness, jsOrS, h]
  · intro h
    simp [synthBusiness, jsOrS, h]
  · intro h
    simp [synthBusiness, jsOrS, h]

def namedUser : UserDoc :=
  { id := 5, name := some "Acme Traders", email := none, password := "h",
    role := "business", businessId := none, category := none,
    location := none, description := none }

/-- Witness for the amended C7: a named candidate keeps its name and gets an
empty category. -/
theorem synthBusiness_fallbacks_witness :
    (synthBusiness namedUser 6).name = some "Acme Traders" ∧
    (synthBusiness namedUser 6).category = "" :=
  ⟨(synthBusiness_fallbacks namedUser 6).1 "Acme Traders" rfl (by decide),
   (synthBusiness_fallbacks namedUser 6).2.2.2.1 rfl⟩
